import Mathlib

/-!
Shallow embedding of the blog-post controller of a MERN blog backend
(`getAllBlog`, `getOneBlog`, `createBlog`, `updateBlog`, `deleteBlog`,
`reactToblog`, `getAuthorBlogs`).  Request handlers are modelled as pure
functions from an explicit database state (lists of blog and comment
documents) to a result together with the successor database state.
MongoDB/Mongoose operations are modelled on lists: `findById` is `find?`
on the id, `findOneAndUpdate`/`findByIdAndUpdate` locate a document and
replace it, `save` writes a document back by id (document ids are unique
in MongoDB), `$addToSet` appends when absent, `$pull` filters out,
`$size` is list length, and sorting is modelled as a stable sort (the
database leaves the order of ties unspecified; the model fixes one).
Cloudinary upload and delete calls are external; each handler takes the
outcome of every such call as an explicit argument.
-/

namespace BlogService

/-! ### JavaScript string primitives used by the handlers -/

/-- `String.prototype.split(",")`: split a character list at every comma.
`splitComma []` is `[[]]`, matching `"".split(",") = [""]`. -/
def splitComma (l : List Char) : List (List Char) :=
  match l with
  | [] => [[]]
  | c :: rest =>
    let r := splitComma rest
    if c = ',' then [] :: r
    else
      match r with
      | [] => [[c]]
      | h :: t => (c :: h) :: t

/-- `parseInt` on a character list: skip leading whitespace, read an
optional sign and then a run of decimal digits; `none` models `NaN`
(no digits).  Hexadecimal prefixes are not modelled; no input in this
development uses them. -/
def jsParseIntChars (l : List Char) : Option Int :=
  let l := l.dropWhile (fun c => c = ' ' ∨ c = '\t' ∨ c = '\n' ∨ c = '\r')
  let core : List Char → Option Nat := fun ds =>
    let digits := ds.takeWhile Char.isDigit
    if digits = [] then none
    else some (digits.foldl (fun acc c => 10 * acc + (c.toNat - '0'.toNat)) 0)
  match l with
  | '-' :: rest => (core rest).map (fun n => -(n : Int))
  | '+' :: rest => (core rest).map (fun n => (n : Int))
  | _ => (core l).map (fun n => (n : Int))

/-- `parseInt` applied to an optional query parameter; a missing
parameter (`undefined`) parses to `NaN`. -/
def jsParseIntOpt (s : Option String) : Option Int :=
  match s with
  | none => none
  | some str => jsParseIntChars str.toList

/-- `v || d` on the result of `parseInt`: both `NaN` and `0` are falsy
in JavaScript, so both fall back to the default. -/
def jsOrInt (v : Option Int) (d : Int) : Int :=
  match v with
  | none => d
  | some n => if n = 0 then d else n

/-- Case-insensitive substring test: models the
`{ $regex: new RegExp(title, "i") }` filter for titles free of regex
metacharacters (the only form this development evaluates). -/
def containsSub (hay pat : String) : Bool :=
  (hay.toList.map Char.toLower).tails.any
    (fun t => (pat.toList.map Char.toLower).isPrefixOf t)

/-! ### Data model -/

/-- A Cloudinary image reference `{ public_id, url }`. -/
structure ImageRef where
  public_id : String
  url : String
deriving DecidableEq

/-- A blog document.  `likes`, `dislikes` and `viewedBy` are arrays of
identifier strings; `views` and `createdAt` are numbers. -/
structure Blog where
  id : String
  author : String
  title : String
  content : String
  tags : List String
  coverImage : Option ImageRef
  images : List ImageRef
  likes : List String
  dislikes : List String
  views : Nat
  viewedBy : List String
  createdAt : Nat
deriving DecidableEq

/-- A comment document; `blog` is the owning post's id. -/
structure Comment where
  id : String
  blog : String
  text : String
deriving DecidableEq

/-- The database state: the `Blog` and `Comment` collections. -/
structure DB where
  blogs : List Blog
  comments : List Comment
deriving DecidableEq

instance {ε α : Type} [DecidableEq ε] [DecidableEq α] : DecidableEq (Except ε α) := fun a b =>
  match a, b with
  | Except.ok x, Except.ok y =>
    if h : x = y then Decidable.isTrue (congrArg Except.ok h)
    else Decidable.isFalse (fun hc => h (Except.ok.inj hc))
  | Except.error x, Except.error y =>
    if h : x = y then Decidable.isTrue (congrArg Except.error h)
    else Decidable.isFalse (fun hc => h (Except.error.inj hc))
  | Except.ok _, Except.error _ => Decidable.isFalse (fun hc => Except.noConfusion hc)
  | Except.error _, Except.ok _ => Decidable.isFalse (fun hc => Except.noConfusion hc)

/-- An error passed to `next(...)`: either an `ApiError` carrying a
message and an HTTP status, or a raised JavaScript `TypeError`
(surfaced by the `TryCatch` wrapper as a plain 500). -/
inductive HandlerError where
  | api (message : String) (statusCode : Nat)
  | typeError (message : String)
  | dbError (message : String)
deriving DecidableEq

/-- Modelled from the spec: the `ApiError` class lives in
`utils/ApiError.js`, which is not part of the sources; per the spec's
error taxonomy a validation error carries the default status 400. -/
def validationStatus : Nat := 400

/-- Modelled from the spec: the reaction vocabulary `REACTIONS` lives in
`constants/blogConstants.js`, which is not part of the sources; the spec
fixes it as the enumerated set `{like, dislike}`. -/
def REACTIONS : List String := ["like", "dislike"]

/-- The query string of a `getAllBlog` request; every parameter is
optional. -/
structure BlogQuery where
  tags : Option String
  title : Option String
  sortBy : Option String
  page : Option String
  limit : Option String
deriving DecidableEq

/-- The `{_id: id, author: userId}` selector used by the authorized
update and delete paths. -/
def ownedBy (id userId : String) (b : Blog) : Bool :=
  b.id == id && b.author == userId

/-- `blog.save()` / `findByIdAndUpdate`: write a document back into the
collection by id (ids are unique in MongoDB, so replacing every
occurrence coincides with replacing the one document). -/
def saveBlog (db : DB) (b : Blog) : DB :=
  { db with blogs := db.blogs.map (fun x => if x.id = b.id then b else x) }

/-! ### getAllBlog -/

/-- The `$match` stage / `find(filterQuery)`: a post matches when its
`tags` array meets the `$in` set (if a tag filter is present) and its
title passes the case-insensitive regex (if a title filter is
present). -/
def matchesFilter (tagFilter : Option (List String)) (titleFilter : Option String)
    (b : Blog) : Bool :=
  (match tagFilter with
   | none => true
   | some arr => b.tags.any (fun t => arr.contains t)) &&
  (match titleFilter with
   | none => true
   | some t => containsSub b.title t)

/-- `startIndex = (pagination - 1) * limitation` with
`pagination = parseInt(page) || 1` and `limitation = parseInt(limit) || 10`. -/
def startIndex (page limit : Option String) : Int :=
  (jsOrInt (jsParseIntOpt page) 1 - 1) * jsOrInt (jsParseIntOpt limit) 10

/-- Descending order on live like-set size, the `$sort` key after
`$addFields likesCount = $size likes`. -/
def likesDesc (a b : Blog) : Prop := b.likes.length ≤ a.likes.length

/-- Descending order on the stored `views` field. -/
def viewsDesc (a b : Blog) : Prop := b.views ≤ a.views

/-- Descending order on the stored `createdAt` field. -/
def createdDesc (a b : Blog) : Prop := b.createdAt ≤ a.createdAt

instance : DecidableRel likesDesc := fun _ _ => Nat.decLe _ _
instance : DecidableRel viewsDesc := fun _ _ => Nat.decLe _ _
instance : DecidableRel createdDesc := fun _ _ => Nat.decLe _ _

instance : IsTotal Blog likesDesc := ⟨fun a b => Nat.le_total b.likes.length a.likes.length⟩
instance : IsTrans Blog likesDesc := ⟨fun _ _ _ h h' => le_trans h' h⟩
instance : IsTotal Blog viewsDesc := ⟨fun a b => Nat.le_total b.views a.views⟩
instance : IsTrans Blog viewsDesc := ⟨fun _ _ _ h h' => le_trans h' h⟩
instance : IsTotal Blog createdDesc := ⟨fun a b => Nat.le_total b.createdAt a.createdAt⟩
instance : IsTrans Blog createdDesc := ⟨fun _ _ _ h h' => le_trans h' h⟩

/-- The `if (tags)` block of `getAllBlog`: no filter when the
parameter is absent or empty (falsy); otherwise split on commas and
require every member to be in the vocabulary. -/
def parseTags (BLOG_TAGS : List String) (tags : Option String) :
    Except HandlerError (Option (List String)) :=
  match tags with
  | none => .ok none
  | some s =>
    if s = "" then .ok none
    else
      let tagArray := (splitComma s.toList).map String.mk
      if tagArray.all (fun t => BLOG_TAGS.contains t) then .ok (some tagArray)
      else .error (.api "Invalid tags" validationStatus)

/-- `getAllBlog`: validate the tag filter against the vocabulary, build
the filter, sort (by live like count for `mostLiked`, by `views` for
`mostViewed`, else by `createdAt`, all descending), then apply
`skip startIndex` and `limit limitation`, and 404 on an empty page.
The vocabulary `BLOG_TAGS` (a constants file absent from the sources)
is a parameter.  The author `$lookup`/`populate` only attaches author
fields and is not modelled.  The database rejects a negative skip;
that corner is modelled as a generic database error. -/
def getAllBlog (BLOG_TAGS : List String) (q : BlogQuery) (db : DB) :
    Except HandlerError (List Blog) :=
  match parseTags BLOG_TAGS q.tags with
  | .error e => .error e
  | .ok tagFilter =>
    let titleFilter : Option String :=
      match q.title with
      | none => none
      | some t => if t = "" then none else some t
    let matching := db.blogs.filter (matchesFilter tagFilter titleFilter)
    let limitation := jsOrInt (jsParseIntOpt q.limit) 10
    let startIdx := startIndex q.page q.limit
    if startIdx < 0 ∨ limitation < 0 then .error (.dbError "negative skip or limit")
    else
      let sorted :=
        if q.sortBy = some "mostLiked" then matching.insertionSort likesDesc
        else if q.sortBy = some "mostViewed" then matching.insertionSort viewsDesc
        else matching.insertionSort createdDesc
      let page := (sorted.drop startIdx.toNat).take limitation.toNat
      if page.length = 0 then .error (.api "No blog found" 404)
      else .ok page

/-! ### getOneBlog -/

/-- The response body of `getOneBlog`: like/dislike counts, the view
count and the post. -/
structure ViewResp where
  likes : Nat
  dislikes : Nat
  views : Nat
  data : Blog
deriving DecidableEq

/-- The viewer identifier: the authenticated user's id when present,
otherwise the request's network address (`req.ip`). -/
def resolveViewer (user : Option String) (ip : String) : String :=
  match user with
  | some uid => uid
  | none => ip

/-- `getOneBlog`: fetch the post by id (404 when absent); when the
viewer identifier is not yet in `viewedBy`, increment `views`, push the
identifier and save.  The `populate` calls only attach author and
comment data and are not modelled. -/
def getOneBlog (db : DB) (id : String) (user : Option String) (ip : String) :
    Except HandlerError ViewResp × DB :=
  match db.blogs.find? (fun b => b.id = id) with
  | none => (.error (.api "No Blog found with this id" 404), db)
  | some blog =>
    let userIdentifier := resolveViewer user ip
    if blog.viewedBy.contains userIdentifier then
      (.ok { likes := blog.likes.length, dislikes := blog.dislikes.length,
             views := blog.views, data := blog }, db)
    else
      let blog' := { blog with views := blog.views + 1,
                               viewedBy := blog.viewedBy ++ [userIdentifier] }
      (.ok { likes := blog'.likes.length, dislikes := blog'.dislikes.length,
             views := blog'.views, data := blog' }, saveBlog db blog')

/-! ### createBlog -/

/-- The gallery branch shared by creation and update: when files are
attached, upload each one (a per-file failure is logged and dropped),
append the successful results to the post's `images` and save. -/
def galleryStep (db : DB) (blog : Blog) (files : List (Except Unit ImageRef)) :
    Except HandlerError Blog × DB :=
  if files.length > 0 then
    let successfulUploads := files.filterMap (fun o => o.toOption)
    let blog' := { blog with images := blog.images ++ successfulUploads }
    (.ok blog', saveBlog db blog')
  else (.ok blog, db)

/-- `createBlog`: create the post with the authenticated user as
author; when a cover file is attached, upload it — on success attach
`{public_id, url}` and save, on failure delete the just-created post
and fail with a 500 upload error; then run the gallery branch.  `body`
is the document built from the request body (its `id` the fresh
document id); `file` and `files` carry the outcome of each Cloudinary
upload. -/
def createBlog (db : DB) (userId : String) (body : Blog)
    (file : Option (Except Unit ImageRef)) (files : List (Except Unit ImageRef)) :
    Except HandlerError Blog × DB :=
  let blog0 := { body with author := userId }
  let db1 := { db with blogs := db.blogs ++ [blog0] }
  match file with
  | some (.error _) =>
    (.error (.api "Error uploading cover image to Cloudinary" 500),
     { db1 with blogs := db1.blogs.filter (fun b => ¬ b.id = blog0.id) })
  | some (.ok img) =>
    let blog1 := { blog0 with coverImage := some img }
    galleryStep (saveBlog db1 blog1) blog1 files
  | none => galleryStep db1 blog0 files

/-! ### updateBlog -/

/-- The update payload (`req.body`) of an update request; only present
fields are applied. -/
structure UpdateBody where
  title : Option String
  content : Option String
  tags : Option (List String)
deriving DecidableEq

/-- `findOneAndUpdate` applying the payload to the stored document:
present fields are set, absent fields are kept; `cover` is the
`coverImage` the handler substituted into the payload, if any. -/
def applyUpdate (body : UpdateBody) (cover : Option ImageRef) (b : Blog) : Blog :=
  { b with
    title := body.title.getD b.title,
    content := body.content.getD b.content,
    tags := body.tags.getD b.tags,
    coverImage := match cover with
      | some img => some img
      | none => b.coverImage }

/-- `updateBlog`: fetch the post by id once.  Cover branch (inside a
try/catch, so a null post's property access is caught and reported as
the 500 upload error): delete the previous cover from Cloudinary when
it has a truthy `public_id` (`delOk` is that call's outcome), upload
the new file, substitute the result into the payload; any failure
aborts with a 500 upload error.  Gallery branch: appends successful
uploads to the fetched document and saves it — this write happens
before the authorization check below, and crashes with an uncaught
`TypeError` when the post id does not exist.  Finally the payload is
applied by `findOneAndUpdate` scoped to `{_id: id, author: userId}`;
no match fails with 404. -/
def updateBlog (db : DB) (userId : String) (id : String) (body : UpdateBody)
    (delOk : Bool) (file : Option (Except Unit ImageRef))
    (files : List (Except Unit ImageRef)) :
    Except HandlerError Blog × DB :=
  let blog? := db.blogs.find? (fun b => b.id = id)
  let coverStep : Except HandlerError (Option ImageRef) :=
    match file with
    | none => .ok none
    | some up =>
      match blog? with
      | none => .error (.api "Error uploading image to Cloudinary" 500)
      | some blog =>
        let hadCover : Bool :=
          match blog.coverImage with
          | some ci => ci.public_id != ""
          | none => false
        if hadCover && !delOk then
          .error (.api "Error uploading image to Cloudinary" 500)
        else
          match up with
          | .error _ => .error (.api "Error uploading image to Cloudinary" 500)
          | .ok img => .ok (some img)
  match coverStep with
  | .error e => (.error e, db)
  | .ok cover =>
    let galleryResult : Except HandlerError DB :=
      if files.length > 0 then
        match blog? with
        | none => .error (.typeError "Cannot read properties of null")
        | some blog =>
          let successfulUploads := files.filterMap (fun o => o.toOption)
          .ok (saveBlog db { blog with images := blog.images ++ successfulUploads })
      else .ok db
    match galleryResult with
    | .error e => (.error e, db)
    | .ok db2 =>
      match db2.blogs.find? (ownedBy id userId) with
      | none =>
        (.error (.api "No comment found with this id or you are not authorized to update this comment" 404),
         db2)
      | some b =>
        let b' := applyUpdate body cover b
        (.ok b', saveBlog db2 b')

/-! ### deleteBlog -/

/-- `deleteBlog`: find a post matching both the id and the
authenticated author (404 otherwise), delete it, then delete every
comment whose `blog` field is that id. -/
def deleteBlog (db : DB) (userId : String) (id : String) :
    Except HandlerError Unit × DB :=
  match db.blogs.find? (ownedBy id userId) with
  | none =>
    (.error (.api "No blog found with this id or you are not authorized to delete this blog" 404),
     db)
  | some _ =>
    (.ok (),
     { blogs := db.blogs.filter (fun b => ¬ b.id = id),
       comments := db.comments.filter (fun c => ¬ c.blog = id) })

/-! ### reactToblog -/

/-- `$addToSet`: append the identifier when it is not already a
member. -/
def addToSet (u : String) (l : List String) : List String :=
  if l.contains u then l else l ++ [u]

/-- `$pull`: remove every occurrence of the identifier. -/
def pull (u : String) (l : List String) : List String :=
  l.filter (fun x => ¬ x = u)

/-- The atomic reaction update: "like" is
`{$addToSet: {likes}, $pull: {dislikes}}`, "dislike" the reverse. -/
def reactionUpdate (reaction : String) (userId : String) (b : Blog) : Blog :=
  if reaction = "like" then
    { b with likes := addToSet userId b.likes, dislikes := pull userId b.dislikes }
  else if reaction = "dislike" then
    { b with dislikes := addToSet userId b.dislikes, likes := pull userId b.likes }
  else b

/-- The response body of `reactToblog`. -/
structure ReactResp where
  likes : List String
  dislikes : List String
  isLiked : Bool
  isDisliked : Bool
deriving DecidableEq

/-- `reactToblog`: reject a reaction outside `REACTIONS`, apply the
reaction update through `findByIdAndUpdate` (404 when the id matches no
post), and report the updated sets and the caller's membership in
each. -/
def reactToblog (db : DB) (blogId : String) (userId : String) (reaction : String) :
    Except HandlerError ReactResp × DB :=
  if ¬ REACTIONS.contains reaction then
    (.error (.api "Invalid reactions" validationStatus), db)
  else
    match db.blogs.find? (fun b => b.id = blogId) with
    | none => (.error (.api "No blog found with this id" 404), db)
    | some blog =>
      let updated := reactionUpdate reaction userId blog
      (.ok { likes := updated.likes, dislikes := updated.dislikes,
             isLiked := updated.likes.contains userId,
             isDisliked := updated.dislikes.contains userId },
       saveBlog db updated)

/-- A sequence of reactions `(userId, reaction)` applied to one post,
threading the database state. -/
def reactSeq (blogId : String) (actions : List (String × String)) (db : DB) : DB :=
  match actions with
  | [] => db
  | (userId, reaction) :: rest =>
    reactSeq blogId rest (reactToblog db blogId userId reaction).2

/-! ### getAuthorBlogs -/

/-- `getAuthorBlogs`: fetch the seed post by id (404 when absent), then
return the first 4 of its author's posts sorted by `createdAt`
descending; 404 when that author has no posts. -/
def getAuthorBlogs (db : DB) (blogId : String) : Except HandlerError (List Blog) :=
  match db.blogs.find? (fun b => b.id = blogId) with
  | none => .error (.api "Blog not found" 404)
  | some blog =>
    let authorBlogs :=
      ((db.blogs.filter (fun b => b.author = blog.author)).insertionSort createdDesc).take 4
    if authorBlogs.length = 0 then
      .error (.api "No other blogs found by this author" 404)
    else .ok authorBlogs

/-! ### Concrete documents used to evaluate the handlers -/

/-- A blank blog document; concrete instances override fields. -/
def blankBlog : Blog :=
  { id := "", author := "", title := "", content := "", tags := [],
    coverImage := none, images := [], likes := [], dislikes := [],
    views := 0, viewedBy := [], createdAt := 0 }

/-- An empty update payload. -/
def emptyBody : UpdateBody := { title := none, content := none, tags := none }

/-- A concrete Cloudinary upload result. -/
def img1 : ImageRef := { public_id := "p1", url := "u1" }

/-- A post owned by user `A`. -/
def blogA : Blog := { blankBlog with id := "b1", author := "A" }

/-- A one-post database owned by user `A`. -/
def dbA : DB := { blogs := [blogA], comments := [] }

/-! ### Helper lemmas -/

/-- `pull` never contains the pulled identifier. -/
theorem not_mem_pull (u : String) (l : List String) : u ∉ pull u l := by
  intro h
  rcases List.mem_filter.mp h with ⟨-, hdec⟩
  simp at hdec

/-- Membership in `pull`. -/
theorem mem_pull {v u : String} {l : List String} :
    v ∈ pull u l ↔ v ∈ l ∧ ¬ v = u := by
  unfold pull
  rw [List.mem_filter]
  simp

/-- `List.contains` agrees with membership for strings. -/
theorem contains_iff_mem (u : String) (l : List String) :
    l.contains u = true ↔ u ∈ l := by
  rw [List.contains_iff_exists_mem_beq]
  constructor
  · rintro ⟨a, ha, hb⟩
    rw [beq_iff_eq] at hb
    exact hb ▸ ha
  · intro h
    exact ⟨u, h, beq_self_eq_true u⟩

/-- Membership in `addToSet`. -/
theorem mem_addToSet {v u : String} {l : List String} :
    v ∈ addToSet u l ↔ v ∈ l ∨ v = u := by
  unfold addToSet
  split
  · next h =>
    have hu : u ∈ l := (contains_iff_mem u l).mp h
    constructor
    · exact Or.inl
    · rintro (hv | rfl)
      · exact hv
      · exact hu
  · rw [List.mem_append, List.mem_singleton]

/-- `addToSet` twice is `addToSet` once. -/
theorem addToSet_idem (u : String) (l : List String) :
    addToSet u (addToSet u l) = addToSet u l := by
  have hmem : u ∈ addToSet u l := mem_addToSet.mpr (Or.inr rfl)
  show (if (addToSet u l).contains u = true then addToSet u l
        else addToSet u l ++ [u]) = addToSet u l
  rw [if_pos ((contains_iff_mem u _).mpr hmem)]

/-- `pull` twice is `pull` once. -/
theorem pull_idem (u : String) (l : List String) :
    pull u (pull u l) = pull u l := by
  unfold pull
  rw [List.filter_filter]
  simp

/-- A reaction update never changes the document id. -/
theorem reactionUpdate_id (r u : String) (b : Blog) :
    (reactionUpdate r u b).id = b.id := by
  unfold reactionUpdate
  split_ifs <;> rfl

/-- Applying the same reaction twice gives the state of applying it
once. -/
theorem reactionUpdate_idem (r u : String) (b : Blog) :
    reactionUpdate r u (reactionUpdate r u b) = reactionUpdate r u b := by
  unfold reactionUpdate
  split_ifs <;> simp [addToSet_idem, pull_idem]

/-- Writing a document back by id moves `find?` (by that id) to the
written document, provided some document with the id was present. -/
theorem find?_saveBlog (l : List Blog) (i : String) (b c : Blog)
    (hb : l.find? (fun x => x.id = i) = some b) (hc : c.id = i) :
    (l.map (fun x => if x.id = c.id then c else x)).find? (fun x => x.id = i)
      = some c := by
  induction l with
  | nil => simp at hb
  | cons a t ih =>
    by_cases h : a.id = i
    · simp only [List.map_cons, if_pos (hc ▸ h : a.id = c.id)]
      exact List.find?_cons_of_pos _ (by simp [hc])
    · have hneg : ¬ a.id = c.id := fun hcontra => h (hc ▸ hcontra)
      simp only [List.map_cons, if_neg hneg]
      rw [List.find?_cons_of_neg _ (by simp [h])]
      rw [List.find?_cons_of_neg _ (by simp [h])] at hb
      exact ih hb

/-- Writing back the same document twice is the same as once. -/
theorem saveBlog_saveBlog (db : DB) (c : Blog) :
    saveBlog (saveBlog db c) c = saveBlog db c := by
  unfold saveBlog
  simp only [List.map_map]
  congr 1
  apply List.map_congr_left
  intro x _
  by_cases h : x.id = c.id
  · simp [Function.comp, h]
  · simp [Function.comp, h]

/-! ### C9: pagination offset -/

/-- The offset per the claim's words: page and limit default to 1 and
10, and only a NON-numeric value falls back to its default — a numeric
value, including 0, is used as parsed.  Stated for comparison with
`startIndex`, which is what the code computes. -/
def claimedOffset (page limit : Option String) : Int :=
  ((match jsParseIntOpt page with
    | none => 1
    | some n => n) - 1) *
  (match jsParseIntOpt limit with
   | none => 10
   | some n => n)

/-- The offset per the amended words: a page or limit value that is
non-numeric or that parses to 0 falls back to its default. -/
def amendedOffset (page limit : Option String) : Int :=
  ((match jsParseIntOpt page with
    | none => 1
    | some n => if n = 0 then 1 else n) - 1) *
  (match jsParseIntOpt limit with
   | none => 10
   | some n => if n = 0 then 10 else n)

/-- C9, counterexample: for `page = "0"` (a numeric value) the claim's
offset formula gives `(0 - 1) * 10 = -10`, but the code's
`parseInt(page) || 1` treats 0 as falsy and uses the default page 1,
giving offset 0. -/
theorem startIndex_zero_page_cex :
    startIndex (some "0") none = 0 ∧
    claimedOffset (some "0") none = -10 ∧
    ¬ startIndex (some "0") none = claimedOffset (some "0") none := by
  refine ⟨by decide, by decide, by decide⟩

/-- C9, amended: for every page and limit parameter, the pagination
offset the code applies (`startIndex`) equals `(page - 1) * limit`
where a non-numeric value, or a value parsing to 0, falls back to the
default (page 1, limit 10). -/
theorem startIndex_eq_amendedOffset (page limit : Option String) :
    startIndex page limit = amendedOffset page limit := by
  unfold startIndex amendedOffset jsOrInt
  cases jsParseIntOpt page <;> cases jsParseIntOpt limit <;> rfl

/-! ### C10: reaction idempotence -/

/-- C10: applying the same reaction twice in succession leaves the
database — in particular the post's like and dislike sets — exactly as
applying it once: the `$addToSet` insert of a present member and the
`$pull` of an absent member are both no-ops. -/
theorem reactToblog_idempotent (db : DB) (blogId userId reaction : String) :
    (reactToblog (reactToblog db blogId userId reaction).2 blogId userId reaction).2
      = (reactToblog db blogId userId reaction).2 := by
  by_cases hr : REACTIONS.contains reaction
  · cases hfind : db.blogs.find? (fun b => b.id = blogId) with
    | none =>
      have h1 : (reactToblog db blogId userId reaction).2 = db := by
        unfold reactToblog
        rw [if_neg (not_not_intro hr), hfind]
      rw [h1]
      exact h1
    | some blog =>
      have hbid : blog.id = blogId := by
        have := List.find?_some hfind
        simpa using this
      have h1 : (reactToblog db blogId userId reaction).2
          = saveBlog db (reactionUpdate reaction userId blog) := by
        unfold reactToblog
        rw [if_neg (not_not_intro hr), hfind]
      rw [h1]
      have hid : (reactionUpdate reaction userId blog).id = blogId := by
        rw [reactionUpdate_id]; exact hbid
      have hfind2 : (saveBlog db (reactionUpdate reaction userId blog)).blogs.find?
          (fun b => b.id = blogId) = some (reactionUpdate reaction userId blog) := by
        unfold saveBlog
        exact find?_saveBlog db.blogs blogId blog _ hfind hid
      have h2 : (reactToblog (saveBlog db (reactionUpdate reaction userId blog))
            blogId userId reaction).2
          = saveBlog (saveBlog db (reactionUpdate reaction userId blog))
              (reactionUpdate reaction userId (reactionUpdate reaction userId blog)) := by
        unfold reactToblog
        rw [if_neg (not_not_intro hr), hfind2]
      rw [h2, reactionUpdate_idem, saveBlog_saveBlog]
  · have h1 : (reactToblog db blogId userId reaction).2 = db := by
      unfold reactToblog
      rw [if_pos hr]
    rw [h1]
    exact h1

/-! ### C4: createBlog rollback on cover-upload failure -/

/-- C4: when the cover-image upload fails, `createBlog` deletes the
just-created post and fails with the 500 upload error; with a fresh
document id the database is exactly as before the request, so no post
persists from the request. -/
theorem createBlog_cover_failure_rollback (db : DB) (userId : String) (body : Blog)
    (files : List (Except Unit ImageRef))
    (hfresh : ∀ b ∈ db.blogs, ¬ b.id = body.id) :
    createBlog db userId body (some (.error ())) files =
      (.error (.api "Error uploading cover image to Cloudinary" 500), db) := by
  obtain ⟨blogs, comments⟩ := db
  simp only [createBlog, Prod.mk.injEq, DB.mk.injEq, and_true, true_and,
    List.filter_append]
  have h1 : blogs.filter (fun b => decide (¬ b.id = body.id)) = blogs := by
    apply List.filter_eq_self.mpr
    intro b hb
    simpa using hfresh b hb
  have h2 : List.filter (fun b => decide (¬ b.id = body.id))
      [{ body with author := userId }] = [] := by
    simp
  rw [h1, h2, List.append_nil]

/-- C4, witness. -/
theorem createBlog_cover_failure_rollback_witness :
    createBlog dbA "A" { blankBlog with id := "new" } (some (.error ())) [] =
      (.error (.api "Error uploading cover image to Cloudinary" 500), dbA) :=
  createBlog_cover_failure_rollback dbA "A" { blankBlog with id := "new" } []
    (by decide)

/-! ### C1: updateBlog authorization / frame -/

/-- C1, counterexample: the post `b1` is owned by `"A"`; user `"B"`
sends an update carrying one gallery image whose upload succeeds.  The
handler answers 404 as claimed, but the stored post's `images` field
has changed from `[]` to `[img1]`: the gallery append is written before
the authorization-scoped update. -/
theorem updateBlog_gallery_append_despite_auth_mismatch :
    (updateBlog dbA "B" "b1" emptyBody true none [Except.ok img1]).1
      = .error (.api "No comment found with this id or you are not authorized to update this comment" 404) ∧
    (updateBlog dbA "B" "b1" emptyBody true none [Except.ok img1]).2.blogs.map Blog.images
      = [[img1]] ∧
    blogA.images = [] := by
  refine ⟨by decide, by decide, rfl⟩

/-- C1, amended: for every update request carrying no image files (no
cover file and no gallery files), when no stored post matches both the
id and the authenticated user, `updateBlog` fails with the 404 error
and the database — hence every field of every post — is unchanged.
(With files attached the claim fails: gallery images are appended to
the post before the authorization check, and a cover file on a
non-existent id aborts with a 500 instead of the 404.) -/
theorem updateBlog_no_files_auth_404_frame (db : DB) (userId id : String)
    (body : UpdateBody) (delOk : Bool)
    (hnone : db.blogs.find? (ownedBy id userId) = none) :
    updateBlog db userId id body delOk none [] =
      (.error (.api "No comment found with this id or you are not authorized to update this comment" 404),
       db) := by
  simp [updateBlog, hnone]

/-- C1, witness: user `"B"` updates the post owned by `"A"` with no
files attached. -/
theorem updateBlog_no_files_auth_404_frame_witness :
    updateBlog dbA "B" "b1" emptyBody true none [] =
      (.error (.api "No comment found with this id or you are not authorized to update this comment" 404),
       dbA) :=
  updateBlog_no_files_auth_404_frame dbA "B" "b1" emptyBody true (by decide)

/-! ### C7: deleteBlog authorization and comment cascade -/

/-- C7: a post is deleted only when a stored post matches both the id
and the authenticated author — otherwise the handler fails with the 404
error and the database is unchanged; on success the matching post is
gone, every comment whose `blog` field equals the id is gone, and every
other post and comment is kept. -/
theorem deleteBlog_auth_and_cascade (db : DB) (userId id : String) :
    (db.blogs.find? (ownedBy id userId) = none →
      deleteBlog db userId id =
        (.error (.api "No blog found with this id or you are not authorized to delete this blog" 404),
         db)) ∧
    (∀ blog, db.blogs.find? (ownedBy id userId) = some blog →
      blog ∈ db.blogs ∧ blog.id = id ∧ blog.author = userId ∧
      (deleteBlog db userId id).1 = .ok () ∧
      (∀ b ∈ (deleteBlog db userId id).2.blogs, ¬ b.id = id) ∧
      (∀ c ∈ (deleteBlog db userId id).2.comments, ¬ c.blog = id) ∧
      (∀ b ∈ db.blogs, ¬ b.id = id → b ∈ (deleteBlog db userId id).2.blogs) ∧
      (∀ c ∈ db.comments, ¬ c.blog = id → c ∈ (deleteBlog db userId id).2.comments)) := by
  constructor
  · intro hnone
    simp [deleteBlog, hnone]
  · intro blog hfind
    have hmem : blog ∈ db.blogs := List.mem_of_find?_eq_some hfind
    have hmatch : blog.id = id ∧ blog.author = userId := by
      have := List.find?_some hfind
      simpa [ownedBy] using this
    refine ⟨hmem, hmatch.1, hmatch.2, ?_, ?_, ?_, ?_, ?_⟩
    · simp [deleteBlog, hfind]
    · intro b hb
      simp only [deleteBlog, hfind] at hb
      simpa using (List.mem_filter.mp hb).2
    · intro c hc
      simp only [deleteBlog, hfind] at hc
      simpa using (List.mem_filter.mp hc).2
    · intro b hb hbid
      simp only [deleteBlog, hfind]
      exact List.mem_filter.mpr ⟨hb, by simpa using hbid⟩
    · intro c hc hcid
      simp only [deleteBlog, hfind]
      exact List.mem_filter.mpr ⟨hc, by simpa using hcid⟩

/-- A comment on `b1` and a comment on an unrelated post. -/
def commentOnB1 : Comment := { id := "c1", blog := "b1", text := "t" }

/-- A comment on an unrelated post `z`. -/
def commentOnZ : Comment := { id := "c2", blog := "z", text := "t" }

/-- The database with post `b1` and two comments. -/
def dbDel : DB := { blogs := [blogA], comments := [commentOnB1, commentOnZ] }

/-- C7, witness: deleting `b1` as its owner `"A"` succeeds and removes
every `b1` comment; a non-owner gets the 404 with nothing deleted. -/
theorem deleteBlog_auth_and_cascade_witness :
    ((deleteBlog dbDel "A" "b1").1 = .ok () ∧
      (∀ c ∈ (deleteBlog dbDel "A" "b1").2.comments, ¬ c.blog = "b1")) ∧
    deleteBlog dbA "B" "b1" =
      (.error (.api "No blog found with this id or you are not authorized to delete this blog" 404),
       dbA) := by
  constructor
  · have h := (deleteBlog_auth_and_cascade dbDel "A" "b1").2 blogA (by decide)
    exact ⟨h.2.2.2.1, h.2.2.2.2.2.1⟩
  · exact (deleteBlog_auth_and_cascade dbA "B" "b1").1 (by decide)

/-! ### C2: view counting -/

/-- The write `getOneBlog` performs for an unseen viewer: increment
`views` and push the identifier. -/
def viewedUpdate (v : String) (b : Blog) : Blog :=
  { b with views := b.views + 1, viewedBy := b.viewedBy ++ [v] }

/-- One `getOneBlog` call with a viewer identity not yet recorded:
the post is saved with `views + 1` and the identity appended. -/
theorem getOneBlog_fresh_step (db : DB) (id : String) (u : Option String) (ip : String)
    (blog : Blog) (hfind : db.blogs.find? (fun b => b.id = id) = some blog)
    (hfresh : ¬ resolveViewer u ip ∈ blog.viewedBy) :
    (getOneBlog db id u ip).2 = saveBlog db (viewedUpdate (resolveViewer u ip) blog) := by
  simp only [getOneBlog, hfind]
  rw [if_neg (fun h => hfresh ((contains_iff_mem _ _).mp h))]
  rfl

/-- One `getOneBlog` call with a viewer identity already recorded:
no write happens. -/
theorem getOneBlog_seen_step (db : DB) (id : String) (u : Option String) (ip : String)
    (blog : Blog) (hfind : db.blogs.find? (fun b => b.id = id) = some blog)
    (hseen : resolveViewer u ip ∈ blog.viewedBy) :
    (getOneBlog db id u ip).2 = db := by
  simp only [getOneBlog, hfind]
  rw [if_pos ((contains_iff_mem _ _).mpr hseen)]

/-- C2, counterexample: the identity `"v"` is already recorded in the
post's `viewedBy`, so two calls with that identity leave `views` at 5
instead of incrementing it by exactly 1 as claimed. -/
theorem getOneBlog_seen_identity_no_increment :
    ((getOneBlog (getOneBlog { blogs := [{ blankBlog with id := "b2", views := 5, viewedBy := ["v"] }], comments := [] }
          "b2" (some "v") "ip").2 "b2" (some "v") "ip").2).blogs.map Blog.views = [5] ∧
    ¬ ((getOneBlog (getOneBlog { blogs := [{ blankBlog with id := "b2", views := 5, viewedBy := ["v"] }], comments := [] }
          "b2" (some "v") "ip").2 "b2" (some "v") "ip").2).blogs.map Blog.views = [5 + 1] := by
  refine ⟨by decide, by decide⟩

/-- C2, amended: for every post and viewer identities NOT already
recorded in its `viewedBy`, two `getOneBlog` calls with the same
identity increment `views` by exactly 1 in total and record the
identity once, while two calls with distinct identities produce
exactly one increment each (2 in total). -/
theorem getOneBlog_fresh_identity_increments (db : DB) (id : String)
    (u1 u2 : Option String) (ip1 ip2 : String) (blog : Blog)
    (hfind : db.blogs.find? (fun b => b.id = id) = some blog)
    (h1 : ¬ resolveViewer u1 ip1 ∈ blog.viewedBy)
    (h2 : ¬ resolveViewer u2 ip2 ∈ blog.viewedBy)
    (hne : ¬ resolveViewer u1 ip1 = resolveViewer u2 ip2) :
    (∃ b2,
      ((getOneBlog (getOneBlog db id u1 ip1).2 id u1 ip1).2).blogs.find?
          (fun b => b.id = id) = some b2 ∧
      b2.views = blog.views + 1 ∧
      b2.viewedBy.count (resolveViewer u1 ip1) = 1) ∧
    (∃ b2,
      ((getOneBlog (getOneBlog db id u1 ip1).2 id u2 ip2).2).blogs.find?
          (fun b => b.id = id) = some b2 ∧
      b2.views = blog.views + 2) := by
  have hid : blog.id = id := by simpa using List.find?_some hfind
  have hstep1 : (getOneBlog db id u1 ip1).2 =
      saveBlog db (viewedUpdate (resolveViewer u1 ip1) blog) :=
    getOneBlog_fresh_step db id u1 ip1 blog hfind h1
  have hfind1 : (saveBlog db (viewedUpdate (resolveViewer u1 ip1) blog)).blogs.find?
      (fun b => b.id = id) = some (viewedUpdate (resolveViewer u1 ip1) blog) :=
    find?_saveBlog db.blogs id blog _ hfind hid
  constructor
  · have hseen : resolveViewer u1 ip1 ∈
        (viewedUpdate (resolveViewer u1 ip1) blog).viewedBy := by
      simp [viewedUpdate]
    have hstep2 := getOneBlog_seen_step _ id u1 ip1 _ hfind1 hseen
    refine ⟨viewedUpdate (resolveViewer u1 ip1) blog, ?_, rfl, ?_⟩
    · rw [hstep1, hstep2]
      exact hfind1
    · have h0 : blog.viewedBy.count (resolveViewer u1 ip1) = 0 :=
        List.count_eq_zero.mpr h1
      simp [viewedUpdate, List.count_append, h0]
  · have hfresh2 : ¬ resolveViewer u2 ip2 ∈
        (viewedUpdate (resolveViewer u1 ip1) blog).viewedBy := by
      simp only [viewedUpdate, List.mem_append, List.mem_singleton]
      rintro (hmem | heq)
      · exact h2 hmem
      · exact hne heq.symm
    have hstep2 := getOneBlog_fresh_step _ id u2 ip2 _ hfind1 hfresh2
    have hfind2 := find?_saveBlog
      (saveBlog db (viewedUpdate (resolveViewer u1 ip1) blog)).blogs id
      (viewedUpdate (resolveViewer u1 ip1) blog)
      (viewedUpdate (resolveViewer u2 ip2) (viewedUpdate (resolveViewer u1 ip1) blog))
      hfind1 hid
    refine ⟨viewedUpdate (resolveViewer u2 ip2) (viewedUpdate (resolveViewer u1 ip1) blog),
      ?_, rfl⟩
    rw [hstep1, hstep2]
    exact hfind2

/-- C2, witness: post `b1` has an empty `viewedBy`; identities `"x"`
(authenticated) and `"y"` (network address) are fresh and distinct. -/
theorem getOneBlog_fresh_identity_increments_witness :
    (∃ b2,
      ((getOneBlog (getOneBlog dbA "b1" (some "x") "i").2 "b1" (some "x") "i").2).blogs.find?
          (fun b => b.id = "b1") = some b2 ∧
      b2.views = blogA.views + 1 ∧
      b2.viewedBy.count (resolveViewer (some "x") "i") = 1) ∧
    (∃ b2,
      ((getOneBlog (getOneBlog dbA "b1" (some "x") "i").2 "b1" none "y").2).blogs.find?
          (fun b => b.id = "b1") = some b2 ∧
      b2.views = blogA.views + 2) :=
  getOneBlog_fresh_identity_increments dbA "b1" (some "x") none "i" "y" blogA
    (by decide) (by decide) (by decide) (by decide)

/-! ### C3: likes and dislikes are mutually exclusive -/

/-- No identifier is in both reaction sets of a post. -/
def likesDislikesDisjoint (b : Blog) : Prop :=
  ∀ u, ¬ (u ∈ b.likes ∧ u ∈ b.dislikes)

/-- The atomic reaction update preserves disjointness of the two
sets. -/
theorem disjoint_reactionUpdate (r u : String) (b : Blog)
    (hd : likesDislikesDisjoint b) :
    likesDislikesDisjoint (reactionUpdate r u b) := by
  intro v hv
  unfold reactionUpdate at hv
  split_ifs at hv
  · rcases hv with ⟨hl, hk⟩
    rcases mem_pull.mp hk with ⟨hkd, hne⟩
    rcases mem_addToSet.mp hl with hl' | rfl
    · exact hd v ⟨hl', hkd⟩
    · exact hne rfl
  · rcases hv with ⟨hl, hk⟩
    rcases mem_pull.mp hl with ⟨hld, hne⟩
    rcases mem_addToSet.mp hk with hk' | rfl
    · exact hd v ⟨hld, hk'⟩
    · exact hne rfl
  · exact hd v hv

/-- One `reactToblog` call preserves disjointness on every stored
post. -/
theorem disjoint_reactToblog (db : DB) (blogId userId reaction : String)
    (hd : ∀ b ∈ db.blogs, likesDislikesDisjoint b) :
    ∀ b ∈ (reactToblog db blogId userId reaction).2.blogs, likesDislikesDisjoint b := by
  intro b hb
  by_cases hr : REACTIONS.contains reaction
  · cases hfind : db.blogs.find? (fun x => x.id = blogId) with
    | none =>
      have h1 : (reactToblog db blogId userId reaction).2 = db := by
        unfold reactToblog
        rw [if_neg (not_not_intro hr), hfind]
      rw [h1] at hb
      exact hd b hb
    | some blog =>
      have h1 : (reactToblog db blogId userId reaction).2
          = saveBlog db (reactionUpdate reaction userId blog) := by
        unfold reactToblog
        rw [if_neg (not_not_intro hr), hfind]
      rw [h1] at hb
      rcases List.mem_map.mp hb with ⟨x, hx, hfx⟩
      by_cases hxid : x.id = (reactionUpdate reaction userId blog).id
      · rw [if_pos hxid] at hfx
        rw [← hfx]
        exact disjoint_reactionUpdate _ _ _
          (hd blog (List.mem_of_find?_eq_some hfind))
      · rw [if_neg hxid] at hfx
        rw [← hfx]
        exact hd x hx
  · have h1 : (reactToblog db blogId userId reaction).2 = db := by
      unfold reactToblog
      rw [if_pos hr]
    rw [h1] at hb
    exact hd b hb

/-- Every sequence of reactions preserves disjointness on every stored
post. -/
theorem disjoint_reactSeq (blogId : String) (actions : List (String × String)) :
    ∀ db : DB, (∀ b ∈ db.blogs, likesDislikesDisjoint b) →
      ∀ b ∈ (reactSeq blogId actions db).blogs, likesDislikesDisjoint b := by
  induction actions with
  | nil => intro db hd; exact hd
  | cons a rest ih =>
    intro db hd
    obtain ⟨u, r⟩ := a
    exact ih _ (disjoint_reactToblog db blogId u r hd)

/-- A valid reaction rewrites the found post to its reaction update. -/
theorem reactToblog_effect (db : DB) (blogId userId : String) (blog : Blog)
    (reaction : String) (hr : REACTIONS.contains reaction = true)
    (hfind : db.blogs.find? (fun b => b.id = blogId) = some blog) :
    (reactToblog db blogId userId reaction).2.blogs.find? (fun b => b.id = blogId)
      = some (reactionUpdate reaction userId blog) := by
  have hbid : blog.id = blogId := by simpa using List.find?_some hfind
  have h1 : (reactToblog db blogId userId reaction).2
      = saveBlog db (reactionUpdate reaction userId blog) := by
    unfold reactToblog
    rw [if_neg (not_not_intro hr), hfind]
  rw [h1]
  exact find?_saveBlog db.blogs blogId blog _ hfind
    (by rw [reactionUpdate_id]; exact hbid)

/-- C3: starting from a database whose posts all have disjoint like and
dislike sets, every sequence of `reactToblog` calls keeps every post's
sets disjoint — no user identifier is ever in both; moreover "like"
puts the caller into `likes` and out of `dislikes` in the same update,
and "dislike" does the reverse. -/
theorem reactToblog_likes_dislikes_exclusive (db : DB) (blogId userId : String)
    (actions : List (String × String)) (blog : Blog)
    (hd : ∀ b ∈ db.blogs, likesDislikesDisjoint b)
    (hfind : db.blogs.find? (fun b => b.id = blogId) = some blog) :
    (∀ b ∈ (reactSeq blogId actions db).blogs, likesDislikesDisjoint b) ∧
    (∃ b', (reactToblog db blogId userId "like").2.blogs.find?
        (fun b => b.id = blogId) = some b' ∧
      userId ∈ b'.likes ∧ ¬ userId ∈ b'.dislikes) ∧
    (∃ b', (reactToblog db blogId userId "dislike").2.blogs.find?
        (fun b => b.id = blogId) = some b' ∧
      userId ∈ b'.dislikes ∧ ¬ userId ∈ b'.likes) := by
  refine ⟨disjoint_reactSeq blogId actions db hd, ?_, ?_⟩
  · refine ⟨reactionUpdate "like" userId blog,
      reactToblog_effect db blogId userId blog "like" (by decide) hfind, ?_, ?_⟩
    · show userId ∈ addToSet userId blog.likes
      exact mem_addToSet.mpr (Or.inr rfl)
    · show ¬ userId ∈ pull userId blog.dislikes
      exact not_mem_pull userId blog.dislikes
  · refine ⟨reactionUpdate "dislike" userId blog,
      reactToblog_effect db blogId userId blog "dislike" (by decide) hfind, ?_, ?_⟩
    · show userId ∈ addToSet userId blog.dislikes
      exact mem_addToSet.mpr (Or.inr rfl)
    · show ¬ userId ∈ pull userId blog.likes
      exact not_mem_pull userId blog.likes

/-- C3, witness: post `b1` starts with empty reaction sets; the
sequence is a "like" then a "dislike" by the same user. -/
theorem reactToblog_likes_dislikes_exclusive_witness :
    (∀ b ∈ (reactSeq "b1" [("u", "like"), ("u", "dislike")] dbA).blogs,
        likesDislikesDisjoint b) ∧
    (∃ b', (reactToblog dbA "b1" "u" "like").2.blogs.find?
        (fun b => b.id = "b1") = some b' ∧
      "u" ∈ b'.likes ∧ ¬ "u" ∈ b'.dislikes) ∧
    (∃ b', (reactToblog dbA "b1" "u" "dislike").2.blogs.find?
        (fun b => b.id = "b1") = some b' ∧
      "u" ∈ b'.dislikes ∧ ¬ "u" ∈ b'.likes) :=
  reactToblog_likes_dislikes_exclusive dbA "b1" "u" [("u", "like"), ("u", "dislike")]
    blogA
    (by
      intro b hb
      have hb' : b = blogA := by simpa [dbA] using hb
      subst hb'
      intro v hv
      simp [blogA, blankBlog] at hv)
    (by decide)

/-! ### C8: getAuthorBlogs -/

/-- C8: when the seed post id matches no post, `getAuthorBlogs` fails
with the 404; when it matches, the handler returns at most 4 posts,
ordered by creation time descending, all sharing the seed post's
author, and the page consists of the author's MOST RECENT posts:
every same-author post left out of the page is no more recent than
every post in it, and the seed post itself is returned unless the page
already holds 4 posts — which, by the previous conjunct, are then all
at least as recent as the seed, i.e. the seed is included whenever it
is among the author's 4 most recent.  (When the seed exists its author
has at least that post, so the "author has no posts" 404 branch is
vacuously compatible.  Under `createdAt` ties the database order is
unspecified; the stable-sort model then decides which of the tied
posts fill the page.) -/
theorem getAuthorBlogs_spec (db : DB) (blogId : String) :
    (db.blogs.find? (fun b => b.id = blogId) = none →
      getAuthorBlogs db blogId = .error (.api "Blog not found" 404)) ∧
    (∀ blog, db.blogs.find? (fun b => b.id = blogId) = some blog →
      ∃ r, getAuthorBlogs db blogId = .ok r ∧
        r.length ≤ 4 ∧ r.Pairwise createdDesc ∧
        (∀ b ∈ r, b.author = blog.author) ∧
        (∀ b ∈ db.blogs, b.author = blog.author → ¬ b ∈ r →
          ∀ a ∈ r, b.createdAt ≤ a.createdAt) ∧
        (blog ∈ r ∨ r.length = 4)) := by
  constructor
  · intro hnone
    simp [getAuthorBlogs, hnone]
  · intro blog hfind
    have hmem : blog ∈ db.blogs := List.mem_of_find?_eq_some hfind
    have hmemf : blog ∈ db.blogs.filter (fun b => b.author = blog.author) :=
      List.mem_filter.mpr ⟨hmem, by simp⟩
    have hmems : blog ∈ (db.blogs.filter (fun b => b.author = blog.author)).insertionSort
        createdDesc :=
      (List.mem_insertionSort createdDesc).mpr hmemf
    have hlen : 0 < ((db.blogs.filter (fun b => b.author = blog.author)).insertionSort
        createdDesc).length := by
      rw [List.length_insertionSort]
      exact List.length_pos.mpr (List.ne_nil_of_mem hmemf)
    have hne : ¬ ((((db.blogs.filter (fun b => b.author = blog.author)).insertionSort
        createdDesc).take 4).length = 0) := by
      rw [List.length_take]
      omega
    have hpw := List.sorted_insertionSort createdDesc
      (db.blogs.filter (fun b => b.author = blog.author))
    rw [← List.take_append_drop 4 ((db.blogs.filter
      (fun b => b.author = blog.author)).insertionSort createdDesc)] at hpw
    rcases List.pairwise_append.mp hpw with ⟨-, -, hcross⟩
    refine ⟨((db.blogs.filter (fun b => b.author = blog.author)).insertionSort
        createdDesc).take 4, ?_, ?_, ?_, ?_, ?_, ?_⟩
    · simp only [getAuthorBlogs, hfind]
      rw [if_neg hne]
    · rw [List.length_take]
      exact min_le_left _ _
    · exact List.Pairwise.sublist (List.take_sublist 4 _)
        (List.sorted_insertionSort createdDesc _)
    · intro b hb
      have hb1 := List.mem_of_mem_take hb
      have hb2 := (List.mem_insertionSort createdDesc).mp hb1
      simpa using (List.mem_filter.mp hb2).2
    · intro b hbmem hbauthor hbnot a ha
      have hbs : b ∈ (db.blogs.filter (fun b => b.author = blog.author)).insertionSort
          createdDesc :=
        (List.mem_insertionSort createdDesc).mpr
          (List.mem_filter.mpr ⟨hbmem, by simpa using hbauthor⟩)
      rw [← List.take_append_drop 4 ((db.blogs.filter
        (fun b => b.author = blog.author)).insertionSort createdDesc)] at hbs
      rcases List.mem_append.mp hbs with hbtake | hbdrop
      · exact absurd hbtake hbnot
      · exact hcross a ha b hbdrop
    · by_cases hseed : blog ∈ ((db.blogs.filter
          (fun b => b.author = blog.author)).insertionSort createdDesc).take 4
      · exact Or.inl hseed
      · refine Or.inr ?_
        have hbs := hmems
        rw [← List.take_append_drop 4 ((db.blogs.filter
          (fun b => b.author = blog.author)).insertionSort createdDesc)] at hbs
        rcases List.mem_append.mp hbs with hbtake | hbdrop
        · exact absurd hbtake hseed
        · have hlong : 4 < ((db.blogs.filter
              (fun b => b.author = blog.author)).insertionSort createdDesc).length := by
            by_contra hle
            push_neg at hle
            rw [List.drop_eq_nil_of_le hle] at hbdrop
            exact List.not_mem_nil blog hbdrop
          rw [List.length_take]
          omega

/-- C8, witness: the seed `b1` exists in `dbA` and `nope` does not. -/
theorem getAuthorBlogs_spec_witness :
    getAuthorBlogs dbA "nope" = .error (.api "Blog not found" 404) ∧
    (∃ r, getAuthorBlogs dbA "b1" = .ok r ∧
      r.length ≤ 4 ∧ r.Pairwise createdDesc ∧
      (∀ b ∈ r, b.author = blogA.author) ∧
      (∀ b ∈ dbA.blogs, b.author = blogA.author → ¬ b ∈ r →
        ∀ a ∈ r, b.createdAt ≤ a.createdAt) ∧
      (blogA ∈ r ∨ r.length = 4)) :=
  ⟨(getAuthorBlogs_spec dbA "nope").1 (by decide),
   (getAuthorBlogs_spec dbA "b1").2 blogA (by decide)⟩

/-! ### C6: tag validation and tag filtering -/

/-- C6: when the comma-separated tags parameter has any member outside
the vocabulary, `getAllBlog` fails with the "Invalid tags" validation
error, and does so for every database state (no query is consulted);
when the call succeeds, every returned post carries at least one of the
given tags. -/
theorem getAllBlog_tag_validation (vocab : List String) (q : BlogQuery) (db db' : DB)
    (s : String) (hq : q.tags = some s) (hs : ¬ s = "") :
    (¬ ((splitComma s.toList).map String.mk).all (fun t => vocab.contains t) = true →
      getAllBlog vocab q db = .error (.api "Invalid tags" validationStatus) ∧
      getAllBlog vocab q db = getAllBlog vocab q db') ∧
    (∀ r b, getAllBlog vocab q db = .ok r → b ∈ r →
      ∃ t, t ∈ (splitComma s.toList).map String.mk ∧ t ∈ b.tags) := by
  constructor
  · intro hbad
    have herr : ∀ d : DB,
        getAllBlog vocab q d = .error (.api "Invalid tags" validationStatus) := by
      intro d
      have hp : parseTags vocab q.tags
          = .error (.api "Invalid tags" validationStatus) := by
        rw [hq]
        simp only [parseTags]
        rw [if_neg hs, if_neg hbad]
      simp only [getAllBlog, hp]
    exact ⟨herr db, (herr db).trans (herr db').symm⟩
  · intro r b hok hb
    by_cases hval :
        ((splitComma s.toList).map String.mk).all (fun t => vocab.contains t) = true
    · have hp : parseTags vocab q.tags
          = .ok (some ((splitComma s.toList).map String.mk)) := by
        rw [hq]
        simp only [parseTags]
        rw [if_neg hs, if_pos hval]
      simp only [getAllBlog, hp] at hok
      set L :=
        (if q.sortBy = some "mostLiked" then
          (db.blogs.filter
            (matchesFilter (some ((splitComma s.toList).map String.mk))
              (match q.title with
               | none => none
               | some t => if t = "" then none else some t))).insertionSort likesDesc
        else if q.sortBy = some "mostViewed" then
          (db.blogs.filter
            (matchesFilter (some ((splitComma s.toList).map String.mk))
              (match q.title with
               | none => none
               | some t => if t = "" then none else some t))).insertionSort viewsDesc
        else
          (db.blogs.filter
            (matchesFilter (some ((splitComma s.toList).map String.mk))
              (match q.title with
               | none => none
               | some t => if t = "" then none else some t))).insertionSort createdDesc)
        with hL
      have hmemL : ∀ x, x ∈ L →
          x ∈ db.blogs.filter
            (matchesFilter (some ((splitComma s.toList).map String.mk))
              (match q.title with
               | none => none
               | some t => if t = "" then none else some t)) := by
        rw [hL]
        intro x hx
        split at hx
        · exact (List.mem_insertionSort likesDesc).mp hx
        · split at hx
          · exact (List.mem_insertionSort viewsDesc).mp hx
          · exact (List.mem_insertionSort createdDesc).mp hx
      split at hok
      · exact Except.noConfusion hok
      · split at hok
        · exact Except.noConfusion hok
        · replace hok := Except.ok.inj hok
          rw [← hok] at hb
          have hb1 := hmemL b (List.mem_of_mem_drop (List.mem_of_mem_take hb))
          have hmf := (List.mem_filter.mp hb1).2
          unfold matchesFilter at hmf
          rw [Bool.and_eq_true] at hmf
          have htag := hmf.1
          rcases List.any_eq_true.mp htag with ⟨t, ht, hcont⟩
          exact ⟨t, (contains_iff_mem _ _).mp hcont, ht⟩
    · have hp : parseTags vocab q.tags
          = .error (.api "Invalid tags" validationStatus) := by
        rw [hq]
        simp only [parseTags]
        rw [if_neg hs, if_neg hval]
      simp only [getAllBlog, hp] at hok
      exact Except.noConfusion hok

/-- A database query with an invalid tags member. -/
def qBadTags : BlogQuery :=
  { tags := some "tech,bogus", title := none, sortBy := none, page := none, limit := none }

/-- A database query with a valid tags member. -/
def qGoodTags : BlogQuery :=
  { tags := some "tech", title := none, sortBy := none, page := none, limit := none }

/-- A post tagged `tech`. -/
def blogTech : Blog := { blankBlog with id := "b3", tags := ["tech"] }

/-- A one-post database whose post is tagged `tech`. -/
def dbTech : DB := { blogs := [blogTech], comments := [] }

/-- C6, witness: over the vocabulary `["tech"]`, the member `bogus`
fails validation, while the valid filter `tech` returns only posts
carrying that tag. -/
theorem getAllBlog_tag_validation_witness :
    getAllBlog ["tech"] qBadTags dbA = .error (.api "Invalid tags" validationStatus) ∧
    (∃ t, t ∈ (splitComma "tech".toList).map String.mk ∧ t ∈ blogTech.tags) :=
  ⟨((getAllBlog_tag_validation ["tech"] qBadTags dbA dbA "tech,bogus" rfl
      (by decide)).1 (by decide)).1,
   (getAllBlog_tag_validation ["tech"] qGoodTags dbTech dbTech "tech" rfl
      (by decide)).2 [blogTech] blogTech (by decide) (by decide)⟩

/-! ### C5: mostLiked ranking and pagination -/

/-- C5: with `sortBy=mostLiked`, `page=2`, `limit=5` over 12 matching
posts, `getAllBlog` returns exactly the slice ranked 6th through 10th
of the list sorted by the live size of each post's `likes` set —
the sort key is `likes.length` itself, not a stored counter: the
returned page is `drop 5 / take 5` of a list that is a permutation of
the matching posts and is pairwise ordered by descending like-set
size, and it has length 5. -/
theorem getAllBlog_mostLiked_live_ranking_page2 (vocab : List String) (q : BlogQuery)
    (db : DB) (htags : q.tags = none) (htitle : q.title = none)
    (hsort : q.sortBy = some "mostLiked")
    (hpage : q.page = some "2") (hlimit : q.limit = some "5")
    (hlen : db.blogs.length = 12) :
    getAllBlog vocab q db
        = .ok (((db.blogs.insertionSort likesDesc).drop 5).take 5) ∧
    List.Perm (db.blogs.insertionSort likesDesc) db.blogs ∧
    (db.blogs.insertionSort likesDesc).Pairwise likesDesc ∧
    (((db.blogs.insertionSort likesDesc).drop 5).take 5).length = 5 := by
  have hsortlen : (db.blogs.insertionSort likesDesc).length = 12 := by
    rw [List.length_insertionSort]
    exact hlen
  have hslice : (((db.blogs.insertionSort likesDesc).drop 5).take 5).length = 5 := by
    rw [List.length_take, List.length_drop, hsortlen]
    decide
  refine ⟨?_, List.perm_insertionSort likesDesc db.blogs,
    List.sorted_insertionSort likesDesc db.blogs, hslice⟩
  have hp : parseTags vocab q.tags = .ok none := by rw [htags]; rfl
  have hmatch : db.blogs.filter (matchesFilter none none) = db.blogs :=
    List.filter_eq_self.mpr (fun a _ => rfl)
  have e1 : startIndex (some "2") (some "5") = 5 := by decide
  have e2 : jsOrInt (jsParseIntOpt (some "5")) 10 = 5 := by decide
  simp only [getAllBlog, hp, htitle, hsort, hpage, hlimit, e1, e2, hmatch]
  rw [if_neg (by norm_num : ¬ ((5:Int) < 0 ∨ (5:Int) < 0))]
  simp only [if_true]
  rw [show ((5:Int).toNat) = 5 from rfl]
  rw [if_neg (by rw [hslice]; norm_num)]

/-- A post with `i` likers, id `i`. -/
def rankedBlog (i : Nat) : Blog :=
  { blankBlog with id := toString i, likes := (List.range i).map toString }

/-- Twelve posts with pairwise distinct like counts 0..11. -/
def db12 : DB := { blogs := (List.range 12).map rankedBlog, comments := [] }

/-- The `mostLiked`, page 2, limit 5 query. -/
def q12 : BlogQuery :=
  { tags := none, title := none, sortBy := some "mostLiked",
    page := some "2", limit := some "5" }

/-- C5, witness: the 12-post database with like counts 0..11. -/
theorem getAllBlog_mostLiked_live_ranking_page2_witness :
    getAllBlog [] q12 db12
        = .ok (((db12.blogs.insertionSort likesDesc).drop 5).take 5) ∧
    List.Perm (db12.blogs.insertionSort likesDesc) db12.blogs ∧
    (db12.blogs.insertionSort likesDesc).Pairwise likesDesc ∧
    (((db12.blogs.insertionSort likesDesc).drop 5).take 5).length = 5 :=
  getAllBlog_mostLiked_live_ranking_page2 [] q12 db12 rfl rfl rfl rfl rfl (by decide)

end BlogService
